import Mathlib

/-!
Verification of the threat-evaluation and notification-decision engine of a
typhoon/earthquake monitoring bot.

Shallow embedding conventions:
* Python floats carried in parsed JSON data are modelled as rationals (`ℚ`)
  in the decision layer; the trigonometric geometry layer works over `ℝ`.
* Python `None` / missing dict keys are modelled with `Option`.
* Python dicts are modelled as association lists (`List (key × value)`), with
  `.get(k, default)` becoming `(List.lookup k m).getD default`.
* Python truthiness is modelled explicitly where the source relies on it
  (`if x:` on a float is `x ≠ 0` on the present value, on a dict it is
  non-emptiness, on an `Option` it is `isSome` plus truthiness of the payload).
* Exceptions raised by fallible code are modelled with `Except`.
-/

/-! ## Decision-layer data model (src/main.py) -/

/-- One per-port entry of a `port_status` dict as stored in a bulletin
snapshot.  Every field is optional because `should_send_alert` reads entries
through `.get(port, {})`, which yields a dict where any key may be absent. -/
structure PortStatus where
  distance_km : Option ℚ
  tcws : Option ℕ
  eta_hours : Option ℚ
  is_threatened : Option Bool
  in_proximity : Option Bool
deriving DecidableEq

/-- The empty dict `{}` used as default by `.get(port, {})`. -/
def emptyStatus : PortStatus := ⟨none, none, none, none, none⟩

/-- A bulletin snapshot as consumed by `should_send_alert`
(src/main.py, `bulletin_data`). Only the fields that function reads are
modelled; `port_status` is the association list for the dict. -/
structure Bulletin where
  bulletin_time : Option String
  port_status : List (String × PortStatus)
deriving DecidableEq

/-- Python's built-in `abs` on rationals, written so that it reduces under
kernel evaluation (it equals `|q|`, see `pyAbs_eq_abs`). -/
def pyAbs (q : ℚ) : ℚ := if q < 0 then -q else q

/-- The keys of the `PORTS` dict in src/main.py, in source order. -/
def PORT_KEYS : List String := ["SBITC", "MICT", "Bauan", "VCT", "MICTSI"]

/-- `bulletin.get("port_status", {}).get(port, {})`. -/
def getPort (b : Bulletin) (p : String) : PortStatus :=
  (b.port_status.lookup p).getD emptyStatus

/-- src/main.py `should_send_alert(current_bulletin, cached_bulletin)`.
`cached = none` models the empty dict `{}` returned by `load_cache` when no
cache file exists (`if not cached_bulletin` is Python-dict truthiness).
The ETA comparison reproduces the source exactly, including the Python
truthiness test `if current_eta and cached_eta`, under which a present value
`0.0` counts as absent. `eta_changed` is the per-port ETA comparison block
(src/main.py lines 159-164) factored out. -/
def eta_changed : Option ℚ → Option ℚ → Bool
  | some ce, some ke => decide (ce ≠ 0) && decide (ke ≠ 0) && decide (pyAbs (ce - ke) > 3)
  | _, _ => false

def should_send_alert (current : Bulletin) (cached : Option Bulletin) : Bool :=
  match cached with
  | none => true
  | some cb =>
    if current.bulletin_time ≠ cb.bulletin_time then true
    else
      PORT_KEYS.any (fun p =>
        let cur := getPort current p
        let cac := getPort cb p
        decide (cur.tcws ≠ cac.tcws) || eta_changed cur.eta_hours cac.eta_hours)

/-- src/main.py `check_threat_level(port_status)`: scans the port-status items
for `if tcws and tcws >= 2` (truthiness plus the `>= 2` comparison). -/
def check_threat_level (port_status : List (String × PortStatus)) : Bool :=
  port_status.any (fun e =>
    match e.2.tcws with
    | some t => decide (t ≠ 0) && decide (2 ≤ t)
    | none => false)

/-- The three observable states of the persisted threat file
`data/last_threat_detected.json` as read by `should_skip_run`:
missing, unparsable (json.load raises), or parsed with an optional
`has_elevated_threat` key (read via `.get('has_elevated_threat', False)`). -/
inductive ThreatState where
  | missing
  | corrupt
  | flag (has_elevated_threat : Option Bool)
deriving DecidableEq

/-- src/main.py `should_skip_run()`, with its three environment reads made
explicit parameters: the `FORCE_STATUS_REPORT` override, the current
PHT hour, and the persisted threat state. The `corrupt` case models the
`except` branch returning `True` ("skip on error to be safe"). -/
def should_skip_run (force_status : Bool) (hour : ℕ) (ts : ThreatState) : Bool :=
  if force_status then false
  else if hour % 2 = 0 then false
  else
    match ts with
    | .missing => true
    | .corrupt => true
    | .flag h => if h.getD false then false else true

/-- An earthquake event dict as consumed by `should_send_earthquake_alert`
(fields read via `.get`, hence optional). -/
structure EqEvent where
  datetime_str : Option String
  location : Option String
  magnitude : Option ℚ
deriving DecidableEq

/-- src/main.py `should_send_earthquake_alert(current_eq, cached_eq)`.
`cached = none` models the empty dict (falsy). Missing magnitudes default
to `0` exactly as `.get('magnitude', 0)` does. -/
def should_send_earthquake_alert (current : EqEvent) (cached : Option EqEvent) : Bool :=
  match cached with
  | none => true
  | some c =>
    if current.datetime_str ≠ c.datetime_str then true
    else if current.location ≠ c.location then true
    else decide (pyAbs (current.magnitude.getD 0 - c.magnitude.getD 0) > 0.2)

/-- The on-disk state of a JSON-backed cache file: absent, present but
unparsable, or present with parsed content. -/
inductive JsonFile (α : Type) where
  | absent
  | corrupt
  | parsed (a : α)

/-- src/main.py `load_cache()`: if the file exists it is opened and
`json.load` is applied with no exception handler, so an unparsable file
raises (modelled as `Except.error`); a missing file yields the empty dict
(modelled as `none`). -/
def load_cache (fs : JsonFile Bulletin) : Except Unit (Option Bulletin) :=
  match fs with
  | .absent => .ok none
  | .corrupt => .error ()
  | .parsed b => .ok (some b)

/-! ## SignalResolver (src/processors/compute_eta.py, `_get_tcws_for_port`) -/

/-- `chPre n h` holds when the char list `n` starts the char list `h`. -/
def chPre : List Char → List Char → Bool
  | [], _ => true
  | _ :: _, [] => false
  | a :: as, b :: bs => a == b && chPre as bs

/-- `chSub n h` holds when `n` occurs contiguously inside `h`
(the semantics of Python's `needle in haystack` on strings). -/
def chSub : List Char → List Char → Bool
  | n, [] => n.isEmpty
  | n, h :: t => chPre n (h :: t) || chSub n t

/-- Python's `needle in haystack` substring test. -/
def substr (needle hay : String) : Bool := chSub needle.data hay.data

/-- `str.lower()` (ASCII case mapping, which covers every string the source
compares: port names and alias-table literals). -/
def strLower (s : String) : String := ⟨s.data.map Char.toLower⟩

/-- `str.upper()` (ASCII case mapping). -/
def strUpper (s : String) : String := ⟨s.data.map Char.toUpper⟩

/-- src/processors/compute_eta.py, the per-area match test inside
`_get_tcws_for_port`: case-insensitive substring match of the port name in
the area name, plus the fixed alias table for specific port names. -/
def area_match (port_name area : String) : Bool :=
  let al := strLower area
  let pl := strLower port_name
  substr pl al ||
  (pl == "manila" &&
    (substr "metro manila" al || substr "ncr" al || substr "national capital" al)) ||
  (pl == "subic" && substr "zambales" al) ||
  (pl == "batangas" && substr "batangas" al) ||
  (pl == "iloilo" && substr "iloilo" al) ||
  (pl == "cagayan" && substr "cagayan" al)

/-- Descending order on TCWS levels, used to model
`sorted(tcws_data.keys(), reverse=True)`. -/
def keyGE (a b : ℕ × List String) : Prop := b.1 ≤ a.1

instance : DecidableRel keyGE := fun a b => Nat.decLe b.1 a.1

instance : IsTotal (ℕ × List String) keyGE :=
  ⟨fun a b => (Nat.le_total b.1 a.1).imp id id⟩

instance : IsTrans (ℕ × List String) keyGE :=
  ⟨fun _ _ _ hab hbc => Nat.le_trans hbc hab⟩

/-- The TCWS area dict, iterated in descending key order. -/
def sortDesc (l : List (ℕ × List String)) : List (ℕ × List String) :=
  l.insertionSort keyGE

/-- src/processors/compute_eta.py `_get_tcws_for_port(port_name, tcws_data)`:
walk the levels from highest to lowest and return the first level one of
whose areas matches the port; `None` when nothing matches (including the
`if not tcws_data` empty-dict guard). -/
def get_tcws_for_port (port_name : String) (tcws_data : List (ℕ × List String)) :
    Option ℕ :=
  if tcws_data.isEmpty then none
  else
    (sortDesc tcws_data).findSome? (fun lv =>
      if lv.2.any (area_match port_name) then some lv.1 else none)

/-! ## GeospatialMath (src/processors/compute_eta.py), over `ℝ`.
Floats are modelled as real numbers; `math.radians/degrees/sin/cos/asin/
atan2/sqrt` become their exact real counterparts. -/

/-- `math.radians`. -/
noncomputable def radians (d : ℝ) : ℝ := d * Real.pi / 180

/-- `math.degrees`. -/
noncomputable def degrees (r : ℝ) : ℝ := r * 180 / Real.pi

/-- Python float `%` on reals: `x % y = x - y*floor(x/y)`. -/
noncomputable def fmod (x y : ℝ) : ℝ := x - y * ⌊x / y⌋

/-- `math.atan2 y x`: the angle of the point `(x, y)` in `(-π, π]`
(real-number model; reals carry no signed zero). -/
noncomputable def atan2 (y x : ℝ) : ℝ :=
  if 0 < x then Real.arctan (y / x)
  else if x < 0 ∧ 0 ≤ y then Real.arctan (y / x) + Real.pi
  else if x < 0 ∧ y < 0 then Real.arctan (y / x) - Real.pi
  else if x = 0 ∧ 0 < y then Real.pi / 2
  else if x = 0 ∧ y < 0 then -(Real.pi / 2)
  else 0

/-- src/processors/compute_eta.py `haversine_distance(lat1, lon1, lat2, lon2)`
with `EARTH_RADIUS_KM = 6371.0`. -/
noncomputable def haversine_distance (lat1 lon1 lat2 lon2 : ℝ) : ℝ :=
  let rlat1 := radians lat1
  let rlat2 := radians lat2
  let dlat := rlat2 - rlat1
  let dlon := radians lon2 - radians lon1
  let a := Real.sin (dlat / 2) ^ 2 +
    Real.cos rlat1 * Real.cos rlat2 * Real.sin (dlon / 2) ^ 2
  let c := 2 * Real.arcsin (Real.sqrt a)
  6371 * c

/-- src/processors/compute_eta.py `calculate_bearing(lat1, lon1, lat2, lon2)`:
initial bearing in degrees, folded into `[0, 360)` by `(bearing + 360) % 360`.
The source calls `atan2(x, y)`, i.e. `x` is the sine-component argument. -/
noncomputable def calculate_bearing (lat1 lon1 lat2 lon2 : ℝ) : ℝ :=
  let rlat1 := radians lat1
  let rlat2 := radians lat2
  let dlon := radians lon2 - radians lon1
  let x := Real.sin dlon * Real.cos rlat2
  let y := Real.cos rlat1 * Real.sin rlat2 -
    Real.sin rlat1 * Real.cos rlat2 * Real.cos dlon
  fmod (degrees (atan2 x y) + 360) 360

/-- The `DIRECTIONS` table of `PortETACalculator`: 16 compass points in
22.5-degree increments. -/
def DIRECTIONS : List (String × ℚ) :=
  [("N", 0), ("NNE", 22.5), ("NE", 45), ("ENE", 67.5),
   ("E", 90), ("ESE", 112.5), ("SE", 135), ("SSE", 157.5),
   ("S", 180), ("SSW", 202.5), ("SW", 225), ("WSW", 247.5),
   ("W", 270), ("WNW", 292.5), ("NW", 315), ("NNW", 337.5)]

/-- The angle-difference normalization in `calculate_eta`:
`angle_diff = abs(movement_bearing - port_bearing)`, folded by
`if angle_diff > 180: angle_diff = 360 - angle_diff`. -/
noncomputable def angleDiff (mb pb : ℝ) : ℝ :=
  if |mb - pb| > 180 then 360 - |mb - pb| else |mb - pb|

/-- The projected closing speed in `calculate_eta`:
`movement_speed * cos(radians(angle_diff))`. -/
noncomputable def effectiveSpeed (v : ℚ) (ad : ℝ) : ℝ :=
  (v : ℝ) * Real.cos (radians ad)

/-- src/processors/compute_eta.py `calculate_eta(storm_lat, storm_lon,
port_lat, port_lon, movement_dir, movement_speed)`. The leading guard
`if not movement_dir or not movement_speed or movement_speed <= 0` is the
Python truthiness test (empty string, zero or non-positive speed). -/
noncomputable def calculate_eta (storm_lat storm_lon port_lat port_lon : ℝ)
    (movement_dir : String) (movement_speed : ℚ) : Option ℝ :=
  if movement_dir = "" ∨ movement_speed ≤ 0 then none
  else
    match DIRECTIONS.lookup (strUpper movement_dir) with
    | none => none
    | some mb =>
      let pb := calculate_bearing storm_lat storm_lon port_lat port_lon
      let ad := angleDiff (mb : ℝ) pb
      if ad > 90 then none
      else
        let dist := haversine_distance storm_lat storm_lon port_lat port_lon
        let eff := effectiveSpeed movement_speed ad
        if eff ≤ 0 then none
        else if dist / eff ≤ 72 then some (dist / eff)
        else none

/-- Round half to even on the integers (the rounding mode of Python's
built-in `round`). -/
noncomputable def roundHalfEven (x : ℝ) : ℤ :=
  if Int.fract x = 1 / 2 then 2 * round (x / 2) else round x

/-- Python `round(x, 1)` on reals: round `10*x` half-to-even, divide by 10. -/
noncomputable def pyRound1 (x : ℝ) : ℝ := (roundHalfEven (10 * x) : ℝ) / 10

/-! ## ThreatSnapshotBuilder (src/processors/compute_eta.py,
`calculate_all_ports`) -/

/-- A per-port status as built by `calculate_all_ports` (all fields are
always written; `tcws` and `eta_hours` may hold `None`). -/
structure PortStatusR where
  distance_km : ℝ
  tcws : Option ℕ
  eta_hours : Option ℝ
  is_threatened : Prop
  in_proximity : Prop

/-- The `PORTS` dict of src/main.py: name, latitude, longitude. -/
def PORTS : List (String × ℚ × ℚ) :=
  [("SBITC", 14.8045, 120.2663), ("MICT", 14.6036, 120.9466),
   ("Bauan", 13.7823, 120.9895), ("VCT", 10.7064, 122.5947),
   ("MICTSI", 8.5533, 124.7667)]

/-- src/processors/compute_eta.py `calculate_all_ports(lat, lon,
movement_dir, movement_speed, tcws_data)` for a calculator constructed with
the given `ports`. The ETA guard `if movement_dir and movement_speed and
movement_speed > 0` is Python truthiness (direction present and non-empty,
speed present and `> 0`), and the stored field
`round(eta_hours, 1) if eta_hours else None` tests the raw float for
truthiness before rounding. `PROXIMITY_THRESHOLD_KM = 700`. -/
noncomputable def calculate_all_ports (ports : List (String × ℚ × ℚ))
    (lat lon : ℚ) (movement_dir : Option String) (movement_speed : Option ℚ)
    (tcws_data : List (ℕ × List String)) : List (String × PortStatusR) :=
  ports.map (fun pp =>
    let port_lat : ℝ := (pp.2.1 : ℝ)
    let port_lon : ℝ := (pp.2.2 : ℝ)
    let distance := haversine_distance (lat : ℝ) (lon : ℝ) port_lat port_lon
    let tcws_level : Option ℕ :=
      if tcws_data.isEmpty then none else get_tcws_for_port pp.1 tcws_data
    let eta_raw : Option ℝ :=
      match movement_dir, movement_speed with
      | some md, some ms =>
          if md ≠ "" ∧ 0 < ms then
            calculate_eta (lat : ℝ) (lon : ℝ) port_lat port_lon md ms
          else none
      | _, _ => none
    (pp.1,
      { distance_km := pyRound1 distance
        tcws := tcws_level
        eta_hours :=
          match eta_raw with
          | some e => if e = 0 then none else some (pyRound1 e)
          | none => none
        is_threatened := tcws_level ≠ none ∨ distance ≤ 700
        in_proximity := distance ≤ 700 }))

/-! ## Helper lemmas -/

lemma pyAbs_eq_abs (q : ℚ) : pyAbs q = |q| := by
  unfold pyAbs
  split_ifs with h
  · exact (abs_of_neg h).symm
  · exact (abs_of_nonneg (not_lt.mp h)).symm

lemma eta_changed_iff (a b : Option ℚ) :
    eta_changed a b = true ↔
      ∃ ce ke, a = some ce ∧ b = some ke ∧ ce ≠ 0 ∧ ke ≠ 0 ∧ |ce - ke| > 3 := by
  rcases a with _ | ce <;> rcases b with _ | ke <;>
    simp [eta_changed, and_assoc, pyAbs_eq_abs]

lemma any_congr_mem {α : Type} (l : List α) (f g : α → Bool)
    (h : ∀ a ∈ l, f a = g a) : l.any f = l.any g := by
  induction l with
  | nil => rfl
  | cons a t ih =>
      simp only [List.any_cons, h a (by simp)]
      rw [ih (fun x hx => h x (by simp [hx]))]

/-! ## Claim theorems: decision layer -/

/-- C4: `should_skip_run` returns false whenever the force override is set;
false whenever the hour is even regardless of the threat flag; and on an odd
hour it returns true exactly when the persisted threat flag is not true
(missing file, unparsable file, absent key, or a false flag all count as
"not true"). -/
theorem should_skip_run_characterization (f : Bool) (hour : ℕ) (ts : ThreatState) :
    should_skip_run f hour ts = true ↔
      f = false ∧ hour % 2 = 1 ∧ ts ≠ ThreatState.flag (some true) := by
  rcases Nat.mod_two_eq_zero_or_one hour with hm | hm
  · cases f <;> rcases ts with _ | _ | (_ | b) <;>
      simp [should_skip_run, hm]
  · cases f <;> rcases ts with _ | _ | (_ | b) <;>
      first
      | (cases b <;> simp [should_skip_run, hm])
      | simp [should_skip_run, hm]

/-- C6: `should_send_earthquake_alert` returns true iff the cache is empty,
or the timestamp token differs, or the location string differs, or the
magnitudes (missing magnitude defaulting to 0, as in the source) differ by
more than 0.2. In particular, with an identical timestamp and location it
returns false at magnitudes 4.15 vs 4.0 and true at 4.3 vs 4.0. -/
theorem should_send_earthquake_alert_iff (cur : EqEvent) (cached : Option EqEvent) :
    should_send_earthquake_alert cur cached = true ↔
      cached = none ∨ ∃ c, cached = some c ∧
        (cur.datetime_str ≠ c.datetime_str ∨ cur.location ≠ c.location ∨
         |cur.magnitude.getD 0 - c.magnitude.getD 0| > 0.2) := by
  rcases cached with _ | c
  · simp [should_send_earthquake_alert]
  · simp only [should_send_earthquake_alert, pyAbs_eq_abs]
    split_ifs with h1 h2 <;> simp_all

/-- C5: on any port-status map whose signal levels lie in the range the
parser can produce (`range(1, 6)`, i.e. at most 5), `check_threat_level`
returns true iff some installation has signal level in {2,3,4,5}; hence it
returns false when every level is absent or 1. -/
theorem check_threat_level_iff (m : List (String × PortStatus))
    (hdom : ∀ e ∈ m, e.2.tcws.getD 0 ≤ 5) :
    check_threat_level m = true ↔
      ∃ e ∈ m, ∃ t, e.2.tcws = some t ∧ (t = 2 ∨ t = 3 ∨ t = 4 ∨ t = 5) := by
  unfold check_threat_level
  rw [List.any_eq_true]
  constructor
  · rintro ⟨e, he, hc⟩
    rcases het : e.2.tcws with _ | t
    · rw [het] at hc; simp at hc
    · rw [het] at hc
      simp only [Bool.and_eq_true, decide_eq_true_eq] at hc
      have hu := hdom e he
      rw [het] at hu
      simp only [Option.getD_some] at hu
      exact ⟨e, he, t, het, by omega⟩
  · rintro ⟨e, he, t, het, hr⟩
    refine ⟨e, he, ?_⟩
    rw [het]
    simp only [Bool.and_eq_true, decide_eq_true_eq]
    omega

/-- Witness for C5 at a concrete map with one installation at signal 3. -/
theorem check_threat_level_iff_witness :
    check_threat_level [("MICT", ⟨none, some 3, none, none, none⟩)] = true :=
  (check_threat_level_iff _ (by decide)).mpr
    ⟨("MICT", ⟨none, some 3, none, none, none⟩), by simp, 3, rfl, by omega⟩

/-- C1 (amended): `should_send_alert` returns true iff the cached snapshot is
empty, or the bulletin_time differs, or some port's tcws differs, or some
port's eta_hours is present *and non-zero* on both sides with the values
differing by more than 3 hours. (The source's Python truthiness test
`if current_eta and cached_eta` treats a stored `0.0` like an absent value,
so "present in both" must be strengthened to "present and non-zero in
both"; see `should_send_alert_zero_eta_cex`.) -/
theorem should_send_alert_characterization (cur : Bulletin) (cached : Option Bulletin) :
    should_send_alert cur cached = true ↔
      cached = none ∨ ∃ cb, cached = some cb ∧
        (cur.bulletin_time ≠ cb.bulletin_time ∨
         ∃ p ∈ PORT_KEYS,
           (getPort cur p).tcws ≠ (getPort cb p).tcws ∨
           ∃ ce ke, (getPort cur p).eta_hours = some ce ∧
             (getPort cb p).eta_hours = some ke ∧
             ce ≠ 0 ∧ ke ≠ 0 ∧ |ce - ke| > 3) := by
  rcases cached with _ | cb
  · simp [should_send_alert]
  · simp only [should_send_alert, Option.some.injEq]
    split_ifs with h1
    · simp only [h1, true_iff]
      exact Or.inr ⟨cb, rfl, Or.inl h1⟩
    · simp only [List.any_eq_true, Bool.or_eq_true, decide_eq_true_eq,
        eta_changed_iff]
      constructor
      · rintro ⟨p, hp, hc⟩
        exact Or.inr ⟨cb, rfl, Or.inr ⟨p, hp, hc⟩⟩
      · rintro (h | ⟨cb2, hcb2, h | ⟨p, hp, hc⟩⟩)
        · exact absurd h (by simp)
        · exact absurd (hcb2 ▸ h1) (by simp [h])
        · cases hcb2
          exact ⟨p, hp, hc⟩

/-- Counterexample to C1 as stated: both ETAs are present (0 and 10) and
differ by more than 3 hours, bulletin_time and all signal levels agree, yet
no alert is sent, because the truthiness test discards the 0.0 value. -/
theorem should_send_alert_zero_eta_cex :
    should_send_alert
        ⟨some "t", [("SBITC", ⟨none, none, some 0, none, none⟩)]⟩
        (some ⟨some "t", [("SBITC", ⟨none, none, some 10, none, none⟩)]⟩) = false ∧
      (getPort ⟨some "t", [("SBITC", ⟨none, none, some 0, none, none⟩)]⟩
        "SBITC").eta_hours = some 0 ∧
      (getPort ⟨some "t", [("SBITC", ⟨none, none, some 10, none, none⟩)]⟩
        "SBITC").eta_hours = some 10 ∧
      |(0 : ℚ) - 10| > 3 :=
  ⟨by decide, by decide, by decide, by norm_num⟩

/-- C10: the alert decision reads only bulletin_time, tcws and eta_hours —
two current snapshots agreeing on those (but arbitrary in distance_km,
in_proximity and is_threatened) produce the same decision against any
cached snapshot. -/
theorem should_send_alert_distance_independent (cached : Option Bulletin)
    (c1 c2 : Bulletin) (hbt : c1.bulletin_time = c2.bulletin_time)
    (hp : ∀ p ∈ PORT_KEYS,
      (getPort c1 p).tcws = (getPort c2 p).tcws ∧
      (getPort c1 p).eta_hours = (getPort c2 p).eta_hours) :
    should_send_alert c1 cached = should_send_alert c2 cached := by
  rcases cached with _ | cb
  · rfl
  · simp only [should_send_alert, hbt]
    split_ifs with h1
    · rfl
    · exact any_congr_mem _ _ _ (fun p hpm => by
        rw [(hp p hpm).1, (hp p hpm).2])

/-- Witness for C10: two snapshots differing only in distance_km,
in_proximity and is_threatened get the same decision. -/
theorem should_send_alert_distance_independent_witness :
    should_send_alert
        ⟨some "t", [("MICT", ⟨some 100, some 1, some 10, some true, some true⟩)]⟩
        (some ⟨some "t", [("MICT", ⟨some 100, some 1, some 10, some true, some true⟩)]⟩)
      = should_send_alert
        ⟨some "t", [("MICT", ⟨some 900, some 1, some 10, some false, some false⟩)]⟩
        (some ⟨some "t", [("MICT", ⟨some 100, some 1, some 10, some true, some true⟩)]⟩) :=
  should_send_alert_distance_independent _ _ _ (by decide) (by decide)

/-- C9: evaluating `load_cache` at a corrupt cache file raises (propagates an
error) instead of degrading to the empty cache — the code slip behind the
claim. A missing file does degrade to the empty cache, and for the threat
file a corrupt state behaves like a missing one inside `should_skip_run`. -/
theorem load_cache_corrupt_raises :
    load_cache JsonFile.corrupt = Except.error () ∧
    load_cache JsonFile.absent = Except.ok none ∧
    should_skip_run false 15 ThreatState.corrupt
      = should_skip_run false 15 ThreatState.missing :=
  ⟨rfl, rfl, rfl⟩

/-! ## Claim theorems: SignalResolver -/

lemma findSome_sorted_max (port : String) (l : List (ℕ × List String))
    (hs : l.Sorted keyGE) (lv : ℕ)
    (hf : l.findSome? (fun p =>
      if p.2.any (area_match port) then some p.1 else none) = some lv) :
    (∃ p ∈ l, p.1 = lv ∧ p.2.any (area_match port) = true) ∧
      ∀ p ∈ l, p.2.any (area_match port) = true → p.1 ≤ lv := by
  induction l with
  | nil => simp at hf
  | cons a t ih =>
      rw [List.sorted_cons] at hs
      rw [List.findSome?_cons] at hf
      rcases ha : a.2.any (area_match port) with _ | _
      · simp only [ha, Bool.false_eq_true, if_false] at hf
        obtain ⟨h1, h2⟩ := ih hs.2 hf
        refine ⟨⟨h1.choose, List.mem_cons_of_mem a h1.choose_spec.1,
          h1.choose_spec.2⟩, ?_⟩
        intro p hp hm
        rcases List.mem_cons.mp hp with rfl | hp2
        · rw [hm] at ha; exact absurd ha (by simp)
        · exact h2 p hp2 hm
      · simp only [ha, if_true, Option.some.injEq] at hf
        subst hf
        refine ⟨⟨a, List.mem_cons_self a t, rfl, ha⟩, ?_⟩
        intro p hp _
        rcases List.mem_cons.mp hp with rfl | hp2
        · exact le_refl _
        · exact hs.1 p hp2

/-- C7: `_get_tcws_for_port` scans levels from highest to lowest and returns
the first (hence highest) level with a matching area, and none when no level
matches; consequently, whenever an installation matches areas under two
distinct levels, the result is a level at least as severe as the higher of
the two. -/
theorem get_tcws_severity_bias (port : String) (data : List (ℕ × List String)) :
    (get_tcws_for_port port data = none ↔
      ∀ p ∈ data, p.2.any (area_match port) = false) ∧
    (∀ l, get_tcws_for_port port data = some l →
      (∃ areas, (l, areas) ∈ data ∧ areas.any (area_match port) = true) ∧
        ∀ p ∈ data, p.2.any (area_match port) = true → p.1 ≤ l) ∧
    (∀ l1 a1 l2 a2, (l1, a1) ∈ data → (l2, a2) ∈ data →
      a1.any (area_match port) = true → a2.any (area_match port) = true →
      l1 < l2 → ∃ l, get_tcws_for_port port data = some l ∧ l2 ≤ l) := by
  have hperm : (sortDesc data).Perm data := List.perm_insertionSort keyGE data
  have hs : (sortDesc data).Sorted keyGE := List.sorted_insertionSort keyGE data
  have hnone : get_tcws_for_port port data = none ↔
      ∀ p ∈ data, p.2.any (area_match port) = false := by
    unfold get_tcws_for_port
    split_ifs with he
    · rw [List.isEmpty_iff] at he
      subst he
      simp
    · rw [List.findSome?_eq_none_iff]
      constructor
      · intro h p hp
        have := h p (hperm.mem_iff.mpr hp)
        by_contra hc
        rw [Bool.not_eq_false] at hc
        rw [hc] at this
        simp at this
      · intro h p hp
        rw [h p (hperm.mem_iff.mp hp)]
        simp
  have hsome : ∀ l, get_tcws_for_port port data = some l →
      (∃ areas, (l, areas) ∈ data ∧ areas.any (area_match port) = true) ∧
        ∀ p ∈ data, p.2.any (area_match port) = true → p.1 ≤ l := by
    intro l hl
    unfold get_tcws_for_port at hl
    split_ifs at hl with he
    obtain ⟨⟨p, hpmem, hp1, hpm⟩, hmax⟩ := findSome_sorted_max port _ hs l hl
    constructor
    · exact ⟨p.2, by rw [← hp1]; exact hperm.mem_iff.mp hpmem, hpm⟩
    · intro q hq hqm
      exact hmax q (hperm.mem_iff.mpr hq) hqm
  refine ⟨hnone, hsome, ?_⟩
  intro l1 a1 l2 a2 h1 h2 hm1 hm2 hlt
  rcases hres : get_tcws_for_port port data with _ | l
  · have := (hnone.mp hres) (l2, a2) h2
    rw [hm2] at this
    exact absurd this (by simp)
  · exact ⟨l, rfl, (hsome l hres).2 (l2, a2) h2 hm2⟩

/-- Witness for C7: an installation matching under levels 1 and 3 resolves
to level 3. -/
theorem get_tcws_severity_bias_witness :
    get_tcws_for_port "Bauan" [(1, ["Bauan town"]), (3, ["bauan, batangas"])]
      = some 3 := by
  obtain ⟨l, hl, hge⟩ :=
    (get_tcws_severity_bias "Bauan"
        [(1, ["Bauan town"]), (3, ["bauan, batangas"])]).2.2
      1 ["Bauan town"] 3 ["bauan, batangas"]
      (by simp) (by simp) (by decide) (by decide) (by decide)
  obtain ⟨⟨areas, hmem, _⟩, _⟩ :=
    (get_tcws_severity_bias "Bauan"
        [(1, ["Bauan town"]), (3, ["bauan, batangas"])]).2.1 l hl
  rcases List.mem_cons.mp hmem with h | h
  · exfalso
    have : l = 1 := congrArg Prod.fst h
    omega
  · rw [List.mem_singleton] at h
    have : l = 3 := congrArg Prod.fst h
    rw [this] at hl
    exact hl

/-! ## Claim theorems: GeospatialMath -/

lemma sin_half_sub_sq (x y : ℝ) :
    Real.sin ((x - y) / 2) ^ 2 = Real.sin ((y - x) / 2) ^ 2 := by
  rw [show (x - y) / 2 = -((y - x) / 2) by ring, Real.sin_neg]
  ring

lemma hav_symm (lat1 lon1 lat2 lon2 : ℝ) :
    haversine_distance lat1 lon1 lat2 lon2 = haversine_distance lat2 lon2 lat1 lon1 := by
  unfold haversine_distance
  dsimp only
  rw [sin_half_sub_sq (radians lat2) (radians lat1),
    sin_half_sub_sq (radians lon2) (radians lon1),
    mul_comm (Real.cos (radians lat1)) (Real.cos (radians lat2))]

lemma hav_self (lat lon : ℝ) : haversine_distance lat lon lat lon = 0 := by
  unfold haversine_distance
  dsimp only
  simp

lemma hav_nonneg (lat1 lon1 lat2 lon2 : ℝ) :
    0 ≤ haversine_distance lat1 lon1 lat2 lon2 := by
  unfold haversine_distance
  dsimp only
  have h := Real.arcsin_nonneg.mpr (Real.sqrt_nonneg
    (Real.sin ((radians lat2 - radians lat1) / 2) ^ 2 +
      Real.cos (radians lat1) * Real.cos (radians lat2) *
        Real.sin ((radians lon2 - radians lon1) / 2) ^ 2))
  positivity

/-- C8 (amended): the haversine distance is symmetric, zero on equal
coordinate pairs, and non-negative.  (The original claim's "zero only if
a == b" is false: distinct coordinate pairs can be antipodal-free
representations of the same point, e.g. at the poles; see
`haversine_zero_ne_cex`.) -/
theorem haversine_symm_self_nonneg :
    (∀ lat1 lon1 lat2 lon2 : ℝ,
      haversine_distance lat1 lon1 lat2 lon2 = haversine_distance lat2 lon2 lat1 lon1) ∧
    (∀ lat lon : ℝ, haversine_distance lat lon lat lon = 0) ∧
    (∀ lat1 lon1 lat2 lon2 : ℝ, 0 ≤ haversine_distance lat1 lon1 lat2 lon2) :=
  ⟨hav_symm, hav_self, hav_nonneg⟩

/-- Counterexample to C8 as stated: the distinct coordinate pairs (90,0)
and (90,100) — both the north pole — have haversine distance zero. -/
theorem haversine_zero_ne_cex :
    haversine_distance 90 0 90 100 = 0 ∧
      ((90 : ℝ), (0 : ℝ)) ≠ ((90 : ℝ), (100 : ℝ)) := by
  constructor
  · unfold haversine_distance
    dsimp only
    have h90 : radians 90 = Real.pi / 2 := by unfold radians; ring
    rw [h90]
    simp [Real.cos_pi_div_two]
  · intro h
    have := congrArg Prod.snd h
    norm_num at this

lemma directions_lookup_empty : DIRECTIONS.lookup (strUpper "") = none := by
  decide

/-- C2: for a recognized compass direction and positive speed,
`calculate_eta` returns none exactly when the normalized angular difference
between the movement bearing and the storm-to-port bearing exceeds 90
degrees, or the effective closing speed (speed times the cosine of that
difference) is non-positive, or distance divided by effective speed exceeds
72 hours; otherwise it returns distance divided by effective speed. -/
theorem calculate_eta_none_characterization
    (slat slon plat plon : ℝ) (d : String) (v : ℚ) (mb : ℚ)
    (hd : DIRECTIONS.lookup (strUpper d) = some mb) (hv : 0 < v) :
    (calculate_eta slat slon plat plon d v = none ↔
      angleDiff (mb : ℝ) (calculate_bearing slat slon plat plon) > 90 ∨
      effectiveSpeed v (angleDiff (mb : ℝ) (calculate_bearing slat slon plat plon)) ≤ 0 ∨
      haversine_distance slat slon plat plon /
        effectiveSpeed v (angleDiff (mb : ℝ) (calculate_bearing slat slon plat plon)) > 72) ∧
    (¬(angleDiff (mb : ℝ) (calculate_bearing slat slon plat plon) > 90 ∨
        effectiveSpeed v (angleDiff (mb : ℝ) (calculate_bearing slat slon plat plon)) ≤ 0 ∨
        haversine_distance slat slon plat plon /
          effectiveSpeed v (angleDiff (mb : ℝ) (calculate_bearing slat slon plat plon)) > 72) →
      calculate_eta slat slon plat plon d v =
        some (haversine_distance slat slon plat plon /
          effectiveSpeed v (angleDiff (mb : ℝ) (calculate_bearing slat slon plat plon)))) := by
  have hne : d ≠ "" := by
    intro h
    rw [h, directions_lookup_empty] at hd
    cases hd
  have hguard : ¬(d = "" ∨ v ≤ 0) := by
    push_neg
    exact ⟨hne, hv⟩
  unfold calculate_eta
  rw [if_neg hguard, hd]
  dsimp only
  split_ifs with h1 h2 h3 <;> simp_all [not_lt.mpr, le_of_lt]

/-- Witness for C2 at storm (0,0), port (1,1), direction NW, speed 20. -/
theorem calculate_eta_none_characterization_witness :
    (calculate_eta 0 0 1 1 "NW" 20 = none ↔
      angleDiff ((315 : ℚ) : ℝ) (calculate_bearing 0 0 1 1) > 90 ∨
      effectiveSpeed 20 (angleDiff ((315 : ℚ) : ℝ) (calculate_bearing 0 0 1 1)) ≤ 0 ∨
      haversine_distance 0 0 1 1 /
        effectiveSpeed 20 (angleDiff ((315 : ℚ) : ℝ) (calculate_bearing 0 0 1 1)) > 72) ∧
    (¬(angleDiff ((315 : ℚ) : ℝ) (calculate_bearing 0 0 1 1) > 90 ∨
        effectiveSpeed 20 (angleDiff ((315 : ℚ) : ℝ) (calculate_bearing 0 0 1 1)) ≤ 0 ∨
        haversine_distance 0 0 1 1 /
          effectiveSpeed 20 (angleDiff ((315 : ℚ) : ℝ) (calculate_bearing 0 0 1 1)) > 72) →
      calculate_eta 0 0 1 1 "NW" 20 =
        some (haversine_distance 0 0 1 1 /
          effectiveSpeed 20 (angleDiff ((315 : ℚ) : ℝ) (calculate_bearing 0 0 1 1)))) :=
  calculate_eta_none_characterization 0 0 1 1 "NW" 20 315 (by decide) (by decide)

/-! ## Claim theorems: ThreatSnapshotBuilder ETA invariant -/

lemma floor_one_div_self : ⌊(360 : ℝ) / 360⌋ = 1 := by norm_num

lemma fmod_360_360 : fmod (0 + 360) 360 = 0 := by
  unfold fmod
  norm_num

lemma bearing_due_north (lat1 lon lat2 : ℝ)
    (h0 : 0 < radians lat2 - radians lat1)
    (h1 : radians lat2 - radians lat1 < Real.pi) :
    calculate_bearing lat1 lon lat2 lon = 0 := by
  unfold calculate_bearing
  dsimp only
  rw [sub_self (radians lon)]
  rw [Real.sin_zero, Real.cos_zero, zero_mul, mul_one]
  have hy : Real.cos (radians lat1) * Real.sin (radians lat2) -
      Real.sin (radians lat1) * Real.cos (radians lat2) =
      Real.sin (radians lat2 - radians lat1) := by
    rw [Real.sin_sub]
    ring
  rw [hy]
  have hypos : 0 < Real.sin (radians lat2 - radians lat1) :=
    Real.sin_pos_of_pos_of_lt_pi h0 h1
  unfold atan2
  rw [if_pos hypos]
  rw [zero_div, Real.arctan_zero]
  unfold degrees
  rw [zero_mul, zero_div]
  exact fmod_360_360

lemma hav_due_north (lat1 lon lat2 : ℝ)
    (h0 : 0 < radians lat2 - radians lat1)
    (h1 : radians lat2 - radians lat1 ≤ Real.pi) :
    haversine_distance lat1 lon lat2 lon =
      6371 * (radians lat2 - radians lat1) := by
  unfold haversine_distance
  dsimp only
  rw [sub_self (radians lon)]
  rw [zero_div, Real.sin_zero]
  have hz : (0 : ℝ) ^ 2 = 0 := by norm_num
  rw [hz, mul_zero, add_zero]
  set t := (radians lat2 - radians lat1) / 2 with ht
  have ht0 : 0 < t := by positivity
  have ht2 : t ≤ Real.pi / 2 := by
    rw [ht]
    linarith
  rw [Real.sqrt_sq_eq_abs, abs_of_nonneg
    (Real.sin_nonneg_of_nonneg_of_le_pi (le_of_lt ht0) (by linarith [Real.pi_pos]))]
  rw [Real.arcsin_sin (by linarith [Real.pi_pos]) ht2]
  rw [ht]
  ring

lemma directions_lookup_N : DIRECTIONS.lookup (strUpper "N") = some 0 := by decide

lemma angleDiff_zero_zero : angleDiff ((0 : ℚ) : ℝ) 0 = 0 := by
  unfold angleDiff
  norm_num

lemma effectiveSpeed_at_zero (v : ℚ) : effectiveSpeed v 0 = (v : ℝ) := by
  unfold effectiveSpeed radians
  rw [zero_mul, zero_div, Real.cos_zero, mul_one]

lemma eta_due_north (lat1 lon lat2 : ℝ) (v : ℚ)
    (h0 : 0 < radians lat2 - radians lat1)
    (h1 : radians lat2 - radians lat1 < Real.pi)
    (hv : 0 < v)
    (hle : 6371 * (radians lat2 - radians lat1) / (v : ℝ) ≤ 72) :
    calculate_eta lat1 lon lat2 lon "N" v =
      some (6371 * (radians lat2 - radians lat1) / (v : ℝ)) := by
  unfold calculate_eta
  rw [if_neg (by push_neg; exact ⟨by simp, hv⟩)]
  rw [directions_lookup_N]
  dsimp only
  rw [bearing_due_north lat1 lon lat2 h0 h1]
  rw [angleDiff_zero_zero]
  rw [if_neg (by norm_num)]
  rw [effectiveSpeed_at_zero]
  have hvr : (0 : ℝ) < (v : ℝ) := by exact_mod_cast hv
  rw [if_neg (not_le.mpr hvr)]
  rw [hav_due_north lat1 lon lat2 h0 (le_of_lt h1)]
  rw [if_pos hle]

lemma pyRound1_small (x : ℝ) (h0 : 0 ≤ x) (h1 : x < 1 / 20) : pyRound1 x = 0 := by
  unfold pyRound1 roundHalfEven
  have hx10 : 0 ≤ 10 * x ∧ 10 * x < 1 / 2 := ⟨by linarith, by linarith⟩
  have hfl : ⌊(10 : ℝ) * x⌋ = 0 := by
    rw [Int.floor_eq_zero_iff]
    constructor
    · exact hx10.1
    · linarith
  have hfr : Int.fract (10 * x) ≠ 1 / 2 := by
    unfold Int.fract
    rw [hfl]
    push_cast
    intro hc
    rw [sub_zero] at hc
    linarith
  rw [if_neg hfr]
  have hrd : round ((10 : ℝ) * x) = 0 := by
    rw [round_eq, Int.floor_eq_zero_iff]
    constructor
    · linarith
    · linarith
  rw [hrd]
  norm_num

lemma roundHalfEven_nonneg (x : ℝ) (h : 0 ≤ x) : 0 ≤ roundHalfEven x := by
  unfold roundHalfEven
  split_ifs with hf
  · have : (0 : ℤ) ≤ round (x / 2) := by
      rw [round_eq]
      exact Int.le_floor.mpr (by push_cast; linarith)
    omega
  · rw [round_eq]
    exact Int.le_floor.mpr (by push_cast; linarith)

lemma pyRound1_nonneg (x : ℝ) (h : 0 ≤ x) : 0 ≤ pyRound1 x := by
  unfold pyRound1
  have h10 := roundHalfEven_nonneg (10 * x) (by linarith)
  have hc : (0 : ℝ) ≤ (roundHalfEven (10 * x) : ℝ) := by exact_mod_cast h10
  linarith

lemma calculate_eta_some_bounds (slat slon plat plon : ℝ) (d : String) (v : ℚ)
    (r : ℝ) (hr : calculate_eta slat slon plat plon d v = some r) :
    0 ≤ r ∧ r ≤ 72 := by
  unfold calculate_eta at hr
  split_ifs at hr
  rcases hlk : DIRECTIONS.lookup (strUpper d) with _ | mb
  · rw [hlk] at hr
    cases hr
  · rw [hlk] at hr
    dsimp only at hr
    split_ifs at hr with h1 h2 h3
    rw [Option.some.injEq] at hr
    subst hr
    constructor
    · apply div_nonneg (hav_nonneg slat slon plat plon)
      exact le_of_lt (not_le.mp h2)
    · exact h3

/-- C3 (amended): every eta_hours value stored by `calculate_all_ports` is
non-negative and is the half-even rounding of a strictly positive raw ETA of
at most 72 hours. (The raw ETA is never zero or negative, but the *stored*
rounded value can be exactly 0.0 when the raw ETA is below 0.05 h; see
`calculate_all_ports_eta_zero_cex`, which refutes strict positivity of the
stored field.) -/
theorem calculate_all_ports_eta_nonneg (ports : List (String × ℚ × ℚ))
    (lat lon : ℚ) (md : Option String) (ms : Option ℚ)
    (tcws_data : List (ℕ × List String)) (x : String × PortStatusR)
    (hx : x ∈ calculate_all_ports ports lat lon md ms tcws_data)
    (e : ℝ) (he : x.2.eta_hours = some e) :
    0 ≤ e ∧ ∃ raw, 0 < raw ∧ raw ≤ 72 ∧ e = pyRound1 raw := by
  unfold calculate_all_ports at hx
  rw [List.mem_map] at hx
  obtain ⟨pp, hpp, hxe⟩ := hx
  subst hxe
  dsimp only at he
  rcases md with _ | mdv
  · dsimp only at he
    cases he
  rcases ms with _ | msv
  · dsimp only at he
    cases he
  dsimp only at he
  split_ifs at he with hg
  · rcases hce : calculate_eta (lat : ℝ) (lon : ℝ) (pp.2.1 : ℝ) (pp.2.2 : ℝ) mdv msv
        with _ | raw
    · rw [hce] at he
      cases he
    · rw [hce] at he
      dsimp only at he
      split_ifs at he with hz
      rw [Option.some.injEq] at he
      subst he
      obtain ⟨hr0, hr72⟩ := calculate_eta_some_bounds _ _ _ _ _ _ _ hce
      have hpos : 0 < raw := lt_of_le_of_ne hr0 (Ne.symm hz)
      exact ⟨pyRound1_nonneg raw hr0, raw, hpos, hr72, rfl⟩

lemma delta_mict :
    radians ((14.6036 : ℚ) : ℝ) - radians ((14.6 : ℚ) : ℝ) = Real.pi / 50000 := by
  unfold radians
  have h1 : ((14.6036 : ℚ) : ℝ) = 14.6036 := by norm_num
  have h2 : ((14.6 : ℚ) : ℝ) = 14.6 := by norm_num
  rw [h1, h2]
  ring_nf

/-- Counterexample to C3 as stated: with the storm 0.0036 degrees due south
of MICT moving north at 30 km/h, the raw ETA is 6371*pi/1500000 (about 48
seconds, strictly positive), yet the snapshot stores eta_hours = 0.0 because
`round(eta, 1)` collapses it. -/
theorem calculate_all_ports_eta_zero_cex :
    ((calculate_all_ports PORTS 14.6 120.9466 (some "N") (some 30) []).lookup
        "MICT").map PortStatusR.eta_hours = some (some 0) := by
  have hpi := Real.pi_pos
  have hpiu := Real.pi_lt_d2
  have h0 : 0 < radians ((14.6036 : ℚ) : ℝ) - radians ((14.6 : ℚ) : ℝ) := by
    rw [delta_mict]; positivity
  have h1 : radians ((14.6036 : ℚ) : ℝ) - radians ((14.6 : ℚ) : ℝ) < Real.pi := by
    rw [delta_mict]; linarith
  have h30 : ((30 : ℚ) : ℝ) = 30 := by norm_num
  have hle : 6371 * (radians ((14.6036 : ℚ) : ℝ) - radians ((14.6 : ℚ) : ℝ)) /
      ((30 : ℚ) : ℝ) ≤ 72 := by
    rw [delta_mict, h30]
    rw [div_le_iff₀ (by norm_num : (0:ℝ) < 30)]
    nlinarith
  have hce := eta_due_north ((14.6 : ℚ) : ℝ) ((120.9466 : ℚ) : ℝ)
    ((14.6036 : ℚ) : ℝ) 30 h0 h1 (by norm_num) hle
  have hraw_pos : 0 < 6371 * (radians ((14.6036 : ℚ) : ℝ) -
      radians ((14.6 : ℚ) : ℝ)) / ((30 : ℚ) : ℝ) := by
    rw [delta_mict, h30]
    positivity
  have hraw_small : 6371 * (radians ((14.6036 : ℚ) : ℝ) -
      radians ((14.6 : ℚ) : ℝ)) / ((30 : ℚ) : ℝ) < 1 / 20 := by
    rw [delta_mict, h30]
    rw [div_lt_iff₀ (by norm_num : (0:ℝ) < 30)]
    nlinarith
  have hb1 : ("MICT" == "SBITC") = false := by decide
  have hb2 : ("MICT" == "MICT") = true := by decide
  unfold calculate_all_ports PORTS
  simp only [List.map_cons, List.map_nil]
  simp only [List.lookup, hb1, hb2]
  simp only [Option.map_some']
  rw [Option.some.injEq]
  rw [if_pos (show "N" ≠ "" ∧ (0 : ℚ) < 30 by decide)]
  rw [hce]
  dsimp only
  rw [if_neg (ne_of_gt hraw_pos)]
  rw [pyRound1_small _ (le_of_lt hraw_pos) hraw_small]

/-- Witness for C3 (amended) at a port 30 degrees due north of the storm,
speed 60 km/h: the stored ETA (about 55.6 h) is non-negative. -/
theorem calculate_all_ports_eta_nonneg_witness :
    0 ≤ pyRound1 (6371 * (radians ((30 : ℚ) : ℝ) - radians ((0 : ℚ) : ℝ)) /
      ((60 : ℚ) : ℝ)) := by
  have hd30 : radians ((30 : ℚ) : ℝ) - radians ((0 : ℚ) : ℝ) = Real.pi / 6 := by
    unfold radians
    have h1 : ((30 : ℚ) : ℝ) = 30 := by norm_num
    have h2 : ((0 : ℚ) : ℝ) = 0 := by norm_num
    rw [h1, h2]
    ring_nf
  have h0 : 0 < radians ((30 : ℚ) : ℝ) - radians ((0 : ℚ) : ℝ) := by
    rw [hd30]; positivity
  have h1 : radians ((30 : ℚ) : ℝ) - radians ((0 : ℚ) : ℝ) < Real.pi := by
    rw [hd30]; linarith [Real.pi_pos]
  have h60 : ((60 : ℚ) : ℝ) = 60 := by norm_num
  have hle : 6371 * (radians ((30 : ℚ) : ℝ) - radians ((0 : ℚ) : ℝ)) /
      ((60 : ℚ) : ℝ) ≤ 72 := by
    rw [hd30, h60, div_le_iff₀ (by norm_num : (0 : ℝ) < 60)]
    nlinarith [Real.pi_lt_d2]
  have hce := eta_due_north ((0 : ℚ) : ℝ) ((120 : ℚ) : ℝ) ((30 : ℚ) : ℝ) 60 h0 h1
    (by norm_num) hle
  have hLne : calculate_all_ports [("P", (30 : ℚ), (120 : ℚ))] 0 120 (some "N")
      (some 60) [] ≠ [] := by
    unfold calculate_all_ports
    simp
  have hhead2 : ((calculate_all_ports [("P", (30 : ℚ), (120 : ℚ))] 0 120 (some "N")
      (some 60) []).head hLne).2.eta_hours =
      some (pyRound1 (6371 * (radians ((30 : ℚ) : ℝ) - radians ((0 : ℚ) : ℝ)) /
        ((60 : ℚ) : ℝ))) := by
    unfold calculate_all_ports
    simp only [List.map_cons, List.map_nil, List.head_cons]
    rw [if_pos (show "N" ≠ "" ∧ (0 : ℚ) < 60 by decide)]
    rw [hce]
    dsimp only
    have hraw_pos : 0 < 6371 * (radians ((30 : ℚ) : ℝ) - radians ((0 : ℚ) : ℝ)) /
        ((60 : ℚ) : ℝ) := by
      rw [hd30, h60]
      positivity
    rw [if_neg (ne_of_gt hraw_pos)]
  exact (calculate_all_ports_eta_nonneg _ 0 120 _ _ _ _ (List.head_mem hLne)
    _ hhead2).1
